import Mathlib

/-!
Verification of the credential decoding pipeline of `sandbox-viper`.

The development shallowly embeds the decoder core:
  - `src/server/decoder/service.ts` (dispatcher),
  - `src/server/decoder/scheme/hcert.ts` (HCERT decoder),
  - `src/server/decoder/modules/nzcp.ts` (NZCP decoder),
  - `src/server/decoder/scheme/mdoc.ts` (MDoc device engagement decoder),
  - `src/server/decoder/scheme/jwt.ts` (JWT decoder).

JavaScript runtime values flowing through the pipeline are modelled by
`JsVal`; external library calls (base45/base32 alphabet decode, pako
inflate, the `cbor` package's structural decode, `jose`'s JWT decode, the
HCERT remote-schema validation) are not code of this repository and are
taken as explicit function parameters, so every theorem quantifies over
their behaviour.  Fallible code returns `Except String`; a thrown JS error
is an `Except.error` carrying the message the code would interpolate.
-/

/-- Keys of CBOR maps / JS objects: integers or strings. -/
abbrev JsKey := Int ⊕ String

/-- JavaScript values as they occur in the decoder pipeline.  CBOR maps and
JS objects are association lists of key/value pairs (the `cbor` package
decodes CBOR maps with non-string keys to JS `Map`s; decoded maps have
unique keys).  `undef` is JS `undefined`; `nan` is the JS number `NaN`;
`tagged` is the `cbor` package's `Tagged` wrapper (with its `.value`);
`bytes` is a `Buffer`/`Uint8Array` of byte values.  CBOR simple values
(`null`, floats) are not exercised by the verified paths and are omitted. -/
inductive JsVal where
  | undef : JsVal
  | nan : JsVal
  | bool : Bool → JsVal
  | num : Int → JsVal
  | str : String → JsVal
  | bytes : List Nat → JsVal
  | arr : List JsVal → JsVal
  | obj : List (JsKey × JsVal) → JsVal
  | tagged : Nat → JsVal → JsVal

/-- Integer key (CWT claim key). -/
def JsKey.num (n : Int) : JsKey := Sum.inl n

/-- String key. -/
def JsKey.str (s : String) : JsKey := Sum.inr s

instance : DecidableEq JsKey := inferInstanceAs (DecidableEq (Int ⊕ String))

/-- `Map.get` on a decoded CBOR map: the value bound to `k`, or JS
`undefined` when the key is absent (decoded CBOR maps have unique keys, so
first-match lookup is exact). -/
def mapGet (entries : List (JsKey × JsVal)) (k : JsKey) : JsVal :=
  match entries with
  | [] => JsVal.undef
  | (k₀, v₀) :: rest => if k₀ = k then v₀ else mapGet rest k

/-- The canonical output of any decode operation (`src/server/decoder/types`):
`{ raw, data, meta }`. -/
structure DecodeResult where
  raw : JsVal
  data : JsVal
  meta : JsVal

/-- `JSON.stringify`-style rendering of a key used by `Object.fromEntries`:
JS object property keys are strings, so integer CBOR keys become their
decimal string. -/
def jsKeyToString : JsKey → String
  | Sum.inl n => toString n
  | Sum.inr s => s

/-- `Object.fromEntries(map)`: rebuilds the entry list with all keys
coerced to JS property strings. -/
def objFromEntries (entries : List (JsKey × JsVal)) : List (JsKey × JsVal) :=
  entries.map (fun kv => (JsKey.str (jsKeyToString kv.1), kv.2))

/-- `Object.fromEntries(map)` as a `JsVal` object, as used for the `raw`
component of every scheme's result. -/
def objFromEntriesJ (entries : List (JsKey × JsVal)) : JsVal :=
  .obj (objFromEntries entries)

/-- JS property access `o[k]` with a string key on an already-materialised
object value; on non-objects the modelled properties are absent
(`undefined`), matching JS for the primitive and array values that occur. -/
def jsGetStr (v : JsVal) (k : String) : JsVal :=
  match v with
  | .obj entries => mapGet entries (JsKey.str k)
  | _ => JsVal.undef

/-- JS truthiness of the modelled values: `undefined`, `NaN`, `false`, `0`
and `""` are falsy; every other number/string and every object (arrays,
byte buffers, maps, `Tagged` wrappers) is truthy. -/
def jsTruthy : JsVal → Bool
  | .undef => false
  | .nan => false
  | .bool b => b
  | .num n => n != 0
  | .str s => s ≠ ""
  | .bytes _ => true
  | .arr _ => true
  | .obj _ => true
  | .tagged _ _ => true

/-- `s.drop n` computed on the character list (kernel-reducible). -/
def strDropN (s : String) (n : Nat) : String :=
  ⟨s.data.drop n⟩

/-- `s.startsWith p` computed on the character lists (kernel-reducible). -/
def strStarts (s p : String) : Bool :=
  p.data.isPrefixOf s.data

/-- ASCII whitespace trimmed by JS `ToNumber` (the Unicode space
characters do not occur in decoded claims). -/
def isJsSpace (c : Char) : Bool :=
  c == ' ' || c == '\t' || c == '\n' || c == '\r'

/-- Whitespace trimming on both ends, on the character list. -/
def jsTrim (s : String) : String :=
  ⟨((s.data.dropWhile isJsSpace).reverse.dropWhile isJsSpace).reverse⟩

/-- ASCII decimal digit test. -/
def isDigitChar (c : Char) : Bool :=
  48 ≤ c.toNat && c.toNat ≤ 57

/-- Value of a digit run, `none` on the first non-digit. -/
def digitsValAux : List Char → Nat → Option Nat
  | [], acc => some acc
  | c :: rest, acc =>
    if isDigitChar c then digitsValAux rest (acc * 10 + (c.toNat - 48)) else none

/-- Value of a non-empty all-digit character run. -/
def digitsVal (cs : List Char) : Option Nat :=
  if cs.isEmpty then none else digitsValAux cs 0

/-- Signed decimal integer literal parse on a character run. -/
def parseIntChars : List Char → Option Int
  | '-' :: rest => (digitsVal rest).map (fun n => -(n : Int))
  | '+' :: rest => (digitsVal rest).map (fun n => (n : Int))
  | cs => (digitsVal cs).map (fun n => (n : Int))

/-- JS `ToNumber` on a string, as exercised by `value * 1000`: surrounding
whitespace is trimmed, the empty string converts to `0`, a decimal integer
literal converts to its value, anything else to `NaN` (fractional,
hexadecimal and exponent literals do not occur in the decoded claims). -/
def jsStrToNumber (s : String) : JsVal :=
  match parseIntChars (jsTrim s).data with
  | some n => .num n
  | none => if (jsTrim s).data.isEmpty then .num 0 else .nan

/-- The JS expression `value * 1000` applied to a decoded claim value:
numbers multiply, booleans coerce to `0`/`1`, strings go through
`ToNumber`, and `undefined`, `NaN` and object values yield `NaN` (the
element-joining coercion of arrays/typed arrays is not exercised by the
decoded CWT claims). -/
def jsMul1000 : JsVal → JsVal
  | .num n => .num (n * 1000)
  | .str s =>
    match jsStrToNumber s with
    | .num n => .num (n * 1000)
    | _ => .nan
  | .bool true => .num 1000
  | .bool false => .num 0
  | _ => .nan

/-- `true` exactly on `Except.ok`. -/
def isOkE {α : Type} : Except String α → Bool
  | .ok _ => true
  | .error _ => false

/-- The `meta` field named `k` of a successful decode result (`undefined`
on failure or when `meta` is not an object). -/
def resultMetaGet (r : Except String DecodeResult) (k : String) : JsVal :=
  match r with
  | .ok res => jsGetStr res.meta k
  | .error _ => JsVal.undef

/-- The decompression stage shared verbatim by the HCERT
(`scheme/hcert.ts` lines 140–151) and NZCP (`modules/nzcp.ts` lines 39–50)
pipelines: if the first byte is the zlib magic `0x78`, inflate the whole
buffer with pako's `inflate` (an external library, passed as a parameter);
otherwise pass the bytes through unchanged. -/
def decompressStage (inflate : List Nat → Except String (List Nat))
    (buffer : List Nat) : Except String (List Nat) :=
  if buffer.head? = some 0x78 then inflate buffer else .ok buffer

/-- Dispatcher-facing decoder capability (`src/server/decoder/types`):
`isMatch` plus fallible `decode`. -/
structure Decoder where
  isMatch : String → Bool
  decode : String → Except String DecodeResult

/-- The empty `DecodeResult` returned on no match: `{raw: {}, data: {}, meta: {}}`. -/
def emptyResult : DecodeResult := ⟨.obj [], .obj [], .obj []⟩

/-- `decode(decoders, input)` from `src/server/decoder/service.ts` lines
18–25: try each decoder's `isMatch` in order, delegate to the first match
(propagating its success or failure), and fall through to the empty result. -/
def decode : List Decoder → String → Except String DecodeResult
  | [], _ => .ok emptyResult
  | d :: ds, input => if d.isMatch input then d.decode input else decode ds input

/-- A decoder whose `isMatch` always fails (used to exercise the dispatcher
on concrete inputs). -/
def dSkip : Decoder := ⟨fun _ => false, fun _ => .error "skip"⟩

/-- A decoder whose `isMatch` always succeeds (used to exercise the
dispatcher on concrete inputs). -/
def dHit : Decoder := ⟨fun _ => true, fun s => .ok ⟨.str s, .obj [], .obj []⟩⟩

/-- Lower-case hexadecimal digit for `n < 16`. -/
def hexDigit (n : Nat) : Char :=
  if n < 10 then Char.ofNat (48 + n) else Char.ofNat (87 + n)

/-- Two lower-case hex digits of a byte. -/
def byteHex (b : Nat) : String :=
  String.mk [hexDigit ((b / 16) % 16), hexDigit (b % 16)]

/-- Hex rendering of a byte list. -/
def hexOfBytes (bs : List Nat) : String :=
  String.join (bs.map byteHex)

/-- The `uuid` package's byte-layout stringification of a 16-byte array:
hex groups of 4-2-2-2-6 bytes joined by dashes. -/
def uuidStringify (bs : List Nat) : String :=
  hexOfBytes (bs.take 4) ++ "-" ++ hexOfBytes ((bs.drop 4).take 2) ++ "-" ++
    hexOfBytes ((bs.drop 6).take 2) ++ "-" ++ hexOfBytes ((bs.drop 8).take 2) ++ "-" ++
    hexOfBytes ((bs.drop 10).take 6)

/-- `uuid.stringify` applied to a decoded claim value: byte buffers of at
least 16 bytes stringify from their first 16 bytes; shorter buffers and
non-buffer values make `stringify` throw a `TypeError`.  (The package also
re-validates the rendered string; decoded CWT IDs of interest are valid
UUIDs, so that check is not modelled.) -/
def uuidStringifyE : JsVal → Except String String
  | .bytes bs =>
    if 16 ≤ bs.length then .ok (uuidStringify (bs.take 16))
    else .error "TypeError: Stringified UUID is invalid"
  | _ => .error "TypeError: stringify expects a byte array"

/-- Character `n` of the standard base64 alphabet. -/
def b64Char (n : Nat) : Char :=
  "ABCDEFGHIJKLMNOPQRSTUVWXYZabcdefghijklmnopqrstuvwxyz0123456789+/".toList.getD n 'A'

/-- `Buffer.prototype.toString('base64')`: standard alphabet with `=`
padding, over byte values (each `< 256`). -/
def base64Encode : List Nat → String
  | [] => ""
  | [a] =>
    String.mk [b64Char (a / 4), b64Char ((a % 4) * 16), '=', '=']
  | [a, b] =>
    String.mk [b64Char (a / 4), b64Char ((a % 4) * 16 + b / 16), b64Char ((b % 16) * 4), '=']
  | a :: b :: c :: rest =>
    String.mk [b64Char (a / 4), b64Char ((a % 4) * 16 + b / 16),
               b64Char ((b % 16) * 4 + c / 64), b64Char (c % 64)] ++ base64Encode rest

/-- `true` when the string contains no JS regular-expression line
terminator (`\n`, `\r`, U+2028, U+2029), the characters `.` does not
match. -/
def noLineTerminator (s : String) : Bool :=
  s.data.all (fun c => c != '\n' && c != '\r' && c != '\u2028' && c != '\u2029')

/-- Capture group 1 of `input.match('^HC1:?(.+)$')` (`scheme/hcert.ts`
line 19): the input must start with `HC1`, the greedy optional `:` is
retried without the colon when the tail would otherwise be empty, and
`(.+)$` forces a non-empty remainder free of line terminators. -/
def hcertMatchGroup (input : String) : Option String :=
  if strStarts input "HC1" then
    if strStarts (strDropN input 3) ":" ∧ strDropN input 4 ≠ ""
        ∧ noLineTerminator (strDropN input 4) = true then
      some (strDropN input 4)
    else if strDropN input 3 ≠ "" ∧ noLineTerminator (strDropN input 3) = true then
      some (strDropN input 3)
    else none
  else none

/-- Capture group 1 of `input.match('^mdoc:?(.+)$')` (`scheme/mdoc.ts`
line 8), with the same optional-colon backtracking as HCERT. -/
def mdocMatchGroup (input : String) : Option String :=
  if strStarts input "mdoc" then
    if strStarts (strDropN input 4) ":" ∧ strDropN input 5 ≠ ""
        ∧ noLineTerminator (strDropN input 5) = true then
      some (strDropN input 5)
    else if strDropN input 4 ≠ "" ∧ noLineTerminator (strDropN input 4) = true then
      some (strDropN input 4)
    else none
  else none

/-- Capture group 1 of `input.match('^NZCP:/1/(.+)$')` (`modules/nzcp.ts`
line 8). -/
def nzcpMatchGroup (input : String) : Option String :=
  if strStarts input "NZCP:/1/" then
    if strDropN input 8 ≠ "" ∧ noLineTerminator (strDropN input 8) = true then
      some (strDropN input 8)
    else none
  else none

/-- `coseData.value[2]` followed by `cbor.decode` requiring a byte buffer:
the COSE envelope decodes to a `Tagged` whose `.value` is the four-element
COSE_Sign1 array; index 2 is the embedded payload byte string.  A
non-`Tagged` value has no `.value` (indexing `undefined` throws), and a
non-buffer payload makes the following `cbor.decode` throw. -/
def coseGetPayloadBytes : JsVal → Except String (List Nat)
  | .tagged _ (.arr xs) =>
    match xs.getD 2 .undef with
    | .bytes bs => .ok bs
    | _ => .error "Error: cbor decode expects a byte buffer"
  | _ => .error "TypeError: Cannot read properties of undefined"

/-- `value.get(...)` requires the decoded CBOR value to be a JS `Map`;
calling `.get` on any other decoded value throws. -/
def asMapEntries : JsVal → Except String (List (JsKey × JsVal))
  | .obj es => .ok es
  | _ => .error "TypeError: value.get is not a function"

namespace HCERTDecoder

/-- `HCERTDecoder.isMatch` (`scheme/hcert.ts` lines 82–84):
`Boolean(input.match(HCERT_PATTERN))`. -/
def isMatch (input : String) : Bool :=
  (hcertMatchGroup input).isSome

/-- The guard at `scheme/hcert.ts` lines 129–132: re-match the pattern
inside `decode` and throw (un-wrapped, before the `threadP` chain) when the
captured payload is absent or falsy (the empty string). -/
def payloadStage (input : String) : Except String String :=
  match hcertMatchGroup input with
  | none => .error "Payload does not confirm to HCERT format"
  | some p => if p = "" then .error "Payload does not confirm to HCERT format" else .ok p

/-- The final pipeline stage of `HCERTDecoder.decode` (`scheme/hcert.ts`
lines 155–168), from the decoded CWT claim map: `hcert` is
`Object.fromEntries(cborData.get(-260))[1]`, gated by `validateOrThrow`
(remote JSON-schema validation, passed as a parameter); `meta` copies claim
`1` verbatim, multiplies claims `6`/`4` by 1000, and classifies `kind` by
the truthiness of `hcert.v`, then `hcert.t`, defaulting to `"Recovery"`. -/
def extract (validate : JsVal → Except String Unit)
    (cwt : List (JsKey × JsVal)) : Except String DecodeResult :=
  match mapGet cwt (JsKey.num (-260)) with
  | .obj ctr =>
    match validate (mapGet (objFromEntries ctr) (JsKey.str "1")) with
    | .error e => .error e
    | .ok _ =>
      match mapGet (objFromEntries ctr) (JsKey.str "1") with
      | .undef => .error "TypeError: Cannot read properties of undefined"
      | hcert =>
        .ok ⟨objFromEntriesJ cwt, hcert,
          .obj [(JsKey.str "iss", mapGet cwt (JsKey.num 1)),
                (JsKey.str "iat", jsMul1000 (mapGet cwt (JsKey.num 6))),
                (JsKey.str "exp", jsMul1000 (mapGet cwt (JsKey.num 4))),
                (JsKey.str "kind", .str
                  (if jsTruthy (jsGetStr hcert "v") then "Vaccination"
                   else if jsTruthy (jsGetStr hcert "t") then "Test"
                   else "Recovery"))]⟩
  | _ => .error "TypeError: argument must be an iterable object"

/-- The `threadP` chain of `HCERTDecoder.decode` (`scheme/hcert.ts` lines
134–168): Base45 decode (external `base45-js`), the shared zlib sniff,
CBOR/COSE unwrap (external `cbor`), then claim extraction. -/
def pipeline (base45 : String → Except String (List Nat))
    (inflate : List Nat → Except String (List Nat))
    (cborDec : List Nat → Except String JsVal)
    (validate : JsVal → Except String Unit)
    (payload : String) : Except String DecodeResult := do
  let bs ← base45 payload
  let buf ← decompressStage inflate bs
  let cose ← cborDec buf
  let inner ← coseGetPayloadBytes cose
  let cwtV ← cborDec inner
  let cwt ← asMapEntries cwtV
  extract validate cwt

/-- `HCERTDecoder.decode` (`scheme/hcert.ts` lines 125–172): prefix guard,
then the pipeline with every failure re-thrown as
`Invalid HCERT payload: ...`. -/
def decode (base45 : String → Except String (List Nat))
    (inflate : List Nat → Except String (List Nat))
    (cborDec : List Nat → Except String JsVal)
    (validate : JsVal → Except String Unit)
    (input : String) : Except String DecodeResult :=
  match payloadStage input with
  | .error e => .error e
  | .ok p =>
    match pipeline base45 inflate cborDec validate p with
    | .ok r => .ok r
    | .error e => .error ("Invalid HCERT payload: " ++ e)

end HCERTDecoder

namespace NZCPDecoder

/-- `NZCPDecoder.isMatch` (`modules/nzcp.ts` lines 15–17). -/
def isMatch (input : String) : Bool :=
  (nzcpMatchGroup input).isSome

/-- The guard at `modules/nzcp.ts` lines 27–30 (thrown before the
`threadP` chain, hence un-wrapped). -/
def payloadStage (input : String) : Except String String :=
  match nzcpMatchGroup input with
  | none => .error "Payload does not confirm to NZCP format"
  | some p => if p = "" then .error "Payload does not confirm to NZCP format" else .ok p

/-- The final pipeline stage of `NZCPDecoder.decode` (`modules/nzcp.ts`
lines 52–71): `data` is claim `"vc"`; `meta` multiplies claims `1`, `5`
and `4` by 1000 (including the issuer at claim `1`), and renders the CWT
ID at claim `7` through `uuid.stringify`, with `jti` prefixed
`urn:uuid:`. -/
def extract (cwt : List (JsKey × JsVal)) : Except String DecodeResult :=
  match uuidStringifyE (mapGet cwt (JsKey.num 7)) with
  | .error e => .error e
  | .ok cti =>
    .ok ⟨objFromEntriesJ cwt, mapGet cwt (JsKey.str "vc"),
      .obj [(JsKey.str "iss", jsMul1000 (mapGet cwt (JsKey.num 1))),
            (JsKey.str "iat", jsMul1000 (mapGet cwt (JsKey.num 5))),
            (JsKey.str "exp", jsMul1000 (mapGet cwt (JsKey.num 4))),
            (JsKey.str "cti", .str cti),
            (JsKey.str "jti", .str ("urn:uuid:" ++ cti))]⟩

/-- The `threadP` chain of `NZCPDecoder.decode` (`modules/nzcp.ts` lines
32–71): Base32 decode (external `hi-base32`), the shared zlib sniff,
CBOR/COSE unwrap (external `cbor`), then claim extraction. -/
def pipeline (base32 : String → Except String (List Nat))
    (inflate : List Nat → Except String (List Nat))
    (cborDec : List Nat → Except String JsVal)
    (payload : String) : Except String DecodeResult := do
  let bs ← base32 payload
  let buf ← decompressStage inflate bs
  let cose ← cborDec buf
  let inner ← coseGetPayloadBytes cose
  let cwtV ← cborDec inner
  let cwt ← asMapEntries cwtV
  extract cwt

/-- `NZCPDecoder.decode` (`modules/nzcp.ts` lines 22–77): prefix guard,
then the pipeline with every failure re-thrown as `Invalid HCERT: ...`
(the string literally written at line 75). -/
def decode (base32 : String → Except String (List Nat))
    (inflate : List Nat → Except String (List Nat))
    (cborDec : List Nat → Except String JsVal)
    (input : String) : Except String DecodeResult :=
  match payloadStage input with
  | .error e => .error e
  | .ok p =>
    match pipeline base32 inflate cborDec p with
    | .ok r => .ok r
    | .error e => .error ("Invalid HCERT: " ++ e)

end NZCPDecoder

namespace MDocDeviceEngagementDecoder

/-- `MDocDeviceEngagementDecoder.isMatch` (`scheme/mdoc.ts` lines 14–16). -/
def isMatch (input : String) : Bool :=
  (mdocMatchGroup input).isSome

/-- The guard at `scheme/mdoc.ts` lines 23–26 (thrown before the `threadP`
chain, hence un-wrapped). -/
def payloadStage (input : String) : Except String String :=
  match mdocMatchGroup input with
  | none => .error "Payload does not confirm to MDoc device engagement format"
  | some p =>
    if p = "" then .error "Payload does not confirm to MDoc device engagement format"
    else .ok p

/-- The EC curve lookup at `scheme/mdoc.ts` lines 48–52: the literal
object has entries `1: 'P-256'` and `2: 'P-348'`; JS property lookup
coerces the key to a string, so both the numeric and the string forms of
`1`/`2` hit, and every other identifier reads `undefined`. -/
def ecCurve : JsVal → JsVal
  | .num 1 => .str "P-256"
  | .num 2 => .str "P-348"
  | .str "1" => .str "P-256"
  | .str "2" => .str "P-348"
  | _ => JsVal.undef

/-- The CBOR-to-JSON stage of `MDocDeviceEngagementDecoder.decode`
(`scheme/mdoc.ts` lines 34–70): destructure `cborData.get(1)` as
`[cipherSuite, encodedDeviceKey]`, CBOR-decode `encodedDeviceKey.value`
into the COSE_Key map, map the curve, and base64-encode the X/Y coordinate
byte strings into the JWK-shaped `meta.security.deviceKey`. -/
def extract (cborDec : List Nat → Except String JsVal)
    (cborData : List (JsKey × JsVal)) : Except String DecodeResult :=
  match mapGet cborData (JsKey.num 1) with
  | .arr security =>
    let cipherSuite := security.getD 0 .undef
    match security.getD 1 .undef with
    | .tagged _ (.bytes ekBytes) =>
      match cborDec ekBytes with
      | .error e => .error e
      | .ok dkV =>
        match dkV with
        | .obj deviceKey =>
          match mapGet deviceKey (JsKey.num (-2)), mapGet deviceKey (JsKey.num (-3)) with
          | .bytes xb, .bytes yb =>
            .ok ⟨objFromEntriesJ cborData, .obj [],
              .obj [(JsKey.str "version", mapGet cborData (JsKey.num 0)),
                    (JsKey.str "security", .obj
                      [(JsKey.str "keyType", mapGet deviceKey (JsKey.num 1)),
                       (JsKey.str "cipherSuite", cipherSuite),
                       (JsKey.str "deviceKey", .obj
                         [(JsKey.str "alg", .str "EC"),
                          (JsKey.str "crv", ecCurve (mapGet deviceKey (JsKey.num (-1)))),
                          (JsKey.str "x", .str (base64Encode xb)),
                          (JsKey.str "y", .str (base64Encode yb))])]),
                    (JsKey.str "deviceRetrievalMethods", mapGet cborData (JsKey.num 2))]⟩
          | _, _ => .error "TypeError: argument must be a Buffer-like value"
        | _ => .error "TypeError: deviceKey.get is not a function"
    | _ => .error "Error: cbor decode expects a byte buffer"
  | _ => .error "TypeError: security is not iterable"

/-- The `threadP` chain of `MDocDeviceEngagementDecoder.decode`
(`scheme/mdoc.ts` lines 28–70): Base64URL decode (`Buffer.from(data,
'base64url')`, total, external), CBOR decode (external `cbor`), then the
structural extraction. -/
def pipeline (b64urlDecode : String → List Nat)
    (cborDec : List Nat → Except String JsVal)
    (payload : String) : Except String DecodeResult := do
  let top ← cborDec (b64urlDecode payload)
  let cborData ← asMapEntries top
  extract cborDec cborData

/-- `MDocDeviceEngagementDecoder.decode` (`scheme/mdoc.ts` lines 20–75):
prefix guard, then the pipeline with every failure re-thrown as
`Invalid MDoc device engagement payload: ...`. -/
def decode (b64urlDecode : String → List Nat)
    (cborDec : List Nat → Except String JsVal)
    (input : String) : Except String DecodeResult :=
  match payloadStage input with
  | .error e => .error e
  | .ok p =>
    match pipeline b64urlDecode cborDec p with
    | .ok r => .ok r
    | .error e => .error ("Invalid MDoc device engagement payload: " ++ e)

end MDocDeviceEngagementDecoder

namespace JWTDecoder

/-- `JWTDecoder.decode` (`scheme/jwt.ts` lines 19–38): decode the claim
set with `jose`'s `decodeJwt` (external, passed as a parameter); `raw` and
`data` are the full claim set, `meta` copies the seven registered claims
through verbatim, and any decode failure is re-thrown as
`Invalid JWT payload: ...`. -/
def decode (decodeJwt : String → Except String (List (JsKey × JsVal)))
    (input : String) : Except String DecodeResult :=
  match decodeJwt input with
  | .ok claims =>
    .ok ⟨.obj claims, .obj claims,
      .obj [(JsKey.str "iss", mapGet claims (JsKey.str "iss")),
            (JsKey.str "sub", mapGet claims (JsKey.str "sub")),
            (JsKey.str "aud", mapGet claims (JsKey.str "aud")),
            (JsKey.str "jti", mapGet claims (JsKey.str "jti")),
            (JsKey.str "nbf", mapGet claims (JsKey.str "nbf")),
            (JsKey.str "exp", mapGet claims (JsKey.str "exp")),
            (JsKey.str "iat", mapGet claims (JsKey.str "iat"))]⟩
  | .error e => .error ("Invalid JWT payload: " ++ e)

end JWTDecoder

/-- The dispatcher's reachable mutable state: the decoder list it
iterates.  `service.ts` only ever reads it. -/
structure ServiceState where
  decoders : List Decoder

/-- The dispatcher as an explicit state transformer: `decode(decoders,
input)` with the decoder list threaded as state.  The loop in
`service.ts` lines 18–25 contains no assignment, so the embedding returns
the state it was given. -/
def decodeSt (input : String) (s : ServiceState) :
    Except String DecodeResult × ServiceState :=
  (decode s.decoders input, s)

/-- JS key presence on a decoded claim object: `true` when the key reads a
value other than `undefined` (absent keys read `undefined`; decoded CBOR
objects never bind `undefined`). -/
def jsPresent (entries : List (JsKey × JsVal)) (k : String) : Bool :=
  match mapGet entries (JsKey.str k) with
  | .undef => false
  | _ => true

/-- The `meta.security.deviceKey.crv` field of an MDoc decode outcome. -/
def deviceKeyCrv (r : Except String DecodeResult) : JsVal :=
  jsGetStr (jsGetStr (resultMetaGet r "security") "deviceKey") "crv"

/-- Stand-in inflate used to exercise the sniff stage on concrete buffers. -/
def stubInflateC6 : List Nat → Except String (List Nat) := fun _ => .ok [1]

/-- An always-accepting HCERT schema validation (network validation passes). -/
def hcertValidateOk : JsVal → Except String Unit := fun _ => .ok ()

/-- A concrete `hcert` object: a vaccination certificate (one `v` group). -/
def hcertHcEx : List (JsKey × JsVal) :=
  [(JsKey.str "ver", .str "1.3.0"), (JsKey.str "v", .arr [.obj []])]

/-- The `-260` claim container of the concrete HCERT CWT: sub-key `1`
holds the certificate. -/
def hcertCtrEx : List (JsKey × JsVal) :=
  [(JsKey.num 1, .obj hcertHcEx)]

/-- A concrete HCERT CWT claim map: issuer `NZ`, issued-at `5`,
expiration `7`, certificate under `-260 / 1`. -/
def hcertCwtEx : List (JsKey × JsVal) :=
  [(JsKey.num 1, .str "NZ"), (JsKey.num 6, .num 5), (JsKey.num 4, .num 7),
   (JsKey.num (-260), .obj hcertCtrEx)]

/-- A concrete NZCP CWT claim map mirroring the Ministry of Health
example pass: a DID string issuer at claim `1`, seconds-valued temporal
claims, and the 16-byte CWT ID of UUID
`60a4f54d-4e30-4332-be33-ad78b1eafa4b` at claim `7`. -/
def nzcpCwtEx : List (JsKey × JsVal) :=
  [(JsKey.num 1, .str "did:web:nzcp.identity.health.nz"),
   (JsKey.num 5, .num 1635883530),
   (JsKey.num 4, .num 1951416330),
   (JsKey.num 7, .bytes [96, 164, 245, 77, 78, 48, 67, 50, 190, 51, 173, 120, 177, 234, 250, 75]),
   (JsKey.str "vc", .obj [(JsKey.str "credentialSubject", .obj [])])]

/-- A concrete NZCP CWT claim map used to exercise the UUID rendering of
claim `7`. -/
def nzcpCwtEx2 : List (JsKey × JsVal) :=
  [(JsKey.num 1, .str "did:web:example.nz"),
   (JsKey.num 5, .num 10), (JsKey.num 4, .num 20),
   (JsKey.num 7, .bytes [0, 1, 2, 3, 4, 5, 70, 7, 136, 9, 10, 11, 12, 13, 14, 15]),
   (JsKey.str "vc", .obj [])]

/-- A concrete MDoc COSE_Key map whose curve identifier (key `-1`) is `2`. -/
def mdocDeviceKeyEx : List (JsKey × JsVal) :=
  [(JsKey.num 1, .num 2),
   (JsKey.num (-1), .num 2),
   (JsKey.num (-2), .bytes [1, 2, 3, 4]),
   (JsKey.num (-3), .bytes [5, 6, 7, 8])]

/-- A CBOR decode stub for the nested device-key bytes of the concrete
MDoc engagement. -/
def mdocCborDecEx : List Nat → Except String JsVal := fun _ => .ok (.obj mdocDeviceKeyEx)

/-- A concrete MDoc device-engagement CBOR map: version, security pair
(cipher suite 1 plus CBOR-encoded device key), retrieval methods. -/
def mdocCborDataEx : List (JsKey × JsVal) :=
  [(JsKey.num 0, .str "1.0"),
   (JsKey.num 1, .arr [.num 1, .tagged 24 (.bytes [217])]),
   (JsKey.num 2, .arr [.arr [.num 2, .num 1, .obj []]])]

/-- A Base32 decoder that rejects its input, as `hi-base32` does on a
character outside its alphabet. -/
def nzcpBase32Fail : String → Except String (List Nat) :=
  fun _ => .error "Error: Invalid base32 characters"

/-- Inflate stub for stages never reached in the concrete runs. -/
def stubInflate : List Nat → Except String (List Nat) := fun _ => .error "unreachable"

/-- CBOR decode stub for stages never reached in the concrete runs. -/
def stubCborDec : List Nat → Except String JsVal := fun _ => .error "unreachable"

/-- A concrete JWT claim set. -/
def jwtStubClaims : List (JsKey × JsVal) :=
  [(JsKey.str "iss", .str "https://issuer.example"), (JsKey.str "exp", .num 1700000000)]

/-- A `decodeJwt` stub returning the concrete claim set. -/
def jwtStubDecode : String → Except String (List (JsKey × JsVal)) :=
  fun _ => .ok jwtStubClaims

/-- C1: `decode(decoders, input)` returns exactly the outcome of the first
decoder whose `isMatch` accepts the input — its result on success, its error
on failure, independent of every later decoder — and when no decoder
matches it returns the empty result `{raw: {}, data: {}, meta: {}}` without
error. -/
theorem decode_dispatch_first_match :
    (∀ (pre post : List Decoder) (d : Decoder) (input : String),
        (∀ d' ∈ pre, d'.isMatch input = false) → d.isMatch input = true →
        decode (pre ++ d :: post) input = d.decode input)
    ∧ (∀ (ds : List Decoder) (input : String),
        (∀ d' ∈ ds, d'.isMatch input = false) →
        decode ds input = .ok emptyResult) := by
  constructor
  · intro pre post d input hpre hd
    induction pre with
    | nil => simp [decode, hd]
    | cons p ps ih =>
      have hp : p.isMatch input = false := hpre p (by simp)
      have hps : ∀ d' ∈ ps, d'.isMatch input = false := by
        intro d' hd'
        exact hpre d' (by simp [hd'])
      simpa [decode, hp] using ih hps
  · intro ds input h
    induction ds with
    | nil => rfl
    | cons p ps ih =>
      have hp : p.isMatch input = false := h p (by simp)
      have hps : ∀ d' ∈ ps, d'.isMatch input = false := by
        intro d' hd'
        exact h d' (by simp [hd'])
      simpa [decode, hp] using ih hps

/-- Witness for C1 at concrete decoder lists: the second decoder is the
first match and decides the outcome; with no match the empty result comes
back. -/
theorem decode_dispatch_first_match_witness :
    decode [dSkip, dHit, dSkip] "abc" = dHit.decode "abc"
    ∧ decode [dSkip, dSkip] "abc" = .ok emptyResult :=
  ⟨decode_dispatch_first_match.1 [dSkip] [dSkip] dHit "abc"
      (by intro d' hd'; simp at hd'; subst hd'; rfl) rfl,
   decode_dispatch_first_match.2 [dSkip, dSkip] "abc"
      (by intro d' hd'; simp at hd'; subst hd'; rfl)⟩

/-- C6: in the shared decompression stage of the HCERT and NZCP pipelines,
a buffer whose first byte is `0x78` is handed whole to DEFLATE inflation,
and a buffer with any other (or no) first byte passes through
byte-for-byte unchanged. -/
theorem decompressStage_sniff :
    ∀ (inflate : List Nat → Except String (List Nat)) (buffer : List Nat),
      (buffer.head? = some 0x78 → decompressStage inflate buffer = inflate buffer)
      ∧ (buffer.head? ≠ some 0x78 → decompressStage inflate buffer = .ok buffer) := by
  intro inflate buffer
  constructor
  · intro h
    simp [decompressStage, h]
  · intro h
    simp [decompressStage, h]

/-- Witness for C6: a zlib-default-compression header is inflated; a ZIP
local-file header passes through unchanged. -/
theorem decompressStage_sniff_witness :
    decompressStage stubInflateC6 [0x78, 0x9c] = stubInflateC6 [0x78, 0x9c]
    ∧ decompressStage stubInflateC6 [0x50, 0x4b] = .ok [0x50, 0x4b] :=
  ⟨(decompressStage_sniff stubInflateC6 [0x78, 0x9c]).1 (by decide),
   (decompressStage_sniff stubInflateC6 [0x50, 0x4b]).2 (by decide)⟩

theorem hcertMatchGroup_nonempty (input p : String)
    (h : hcertMatchGroup input = some p) : p ≠ "" := by
  unfold hcertMatchGroup at h
  split_ifs at h with h1 h2 h3
  · rw [Option.some_inj] at h
    subst h
    exact h2.2.1
  · rw [Option.some_inj] at h
    subst h
    exact h3.1

theorem mdocMatchGroup_nonempty (input p : String)
    (h : mdocMatchGroup input = some p) : p ≠ "" := by
  unfold mdocMatchGroup at h
  split_ifs at h with h1 h2 h3
  · rw [Option.some_inj] at h
    subst h
    exact h2.2.1
  · rw [Option.some_inj] at h
    subst h
    exact h3.1

theorem nzcpMatchGroup_nonempty (input p : String)
    (h : nzcpMatchGroup input = some p) : p ≠ "" := by
  unfold nzcpMatchGroup at h
  split_ifs at h with h1 h2
  · rw [Option.some_inj] at h
    subst h
    exact h2.1

/-- C9: for each prefix-based decoder, `isMatch input = true` makes the
`Payload does not confirm to ... format` branch inside `decode`
unreachable: the re-match yields a non-empty capture and the guard stage
succeeds, because `isMatch` and `decode` evaluate the same pattern on the
same input and the `(.+)` group never captures the empty string. -/
theorem prefix_guard_unreachable :
    ∀ input : String,
      (HCERTDecoder.isMatch input = true →
        (hcertMatchGroup input).getD "" ≠ ""
          ∧ isOkE (HCERTDecoder.payloadStage input) = true)
      ∧ (MDocDeviceEngagementDecoder.isMatch input = true →
        (mdocMatchGroup input).getD "" ≠ ""
          ∧ isOkE (MDocDeviceEngagementDecoder.payloadStage input) = true)
      ∧ (NZCPDecoder.isMatch input = true →
        (nzcpMatchGroup input).getD "" ≠ ""
          ∧ isOkE (NZCPDecoder.payloadStage input) = true) := by
  intro input
  refine ⟨?_, ?_, ?_⟩
  · intro hm
    unfold HCERTDecoder.isMatch at hm
    obtain ⟨p, hp⟩ := Option.isSome_iff_exists.mp hm
    have hne := hcertMatchGroup_nonempty input p hp
    refine ⟨by rw [hp]; simpa using hne, ?_⟩
    unfold HCERTDecoder.payloadStage
    rw [hp]
    simp [hne, isOkE]
  · intro hm
    unfold MDocDeviceEngagementDecoder.isMatch at hm
    obtain ⟨p, hp⟩ := Option.isSome_iff_exists.mp hm
    have hne := mdocMatchGroup_nonempty input p hp
    refine ⟨by rw [hp]; simpa using hne, ?_⟩
    unfold MDocDeviceEngagementDecoder.payloadStage
    rw [hp]
    simp [hne, isOkE]
  · intro hm
    unfold NZCPDecoder.isMatch at hm
    obtain ⟨p, hp⟩ := Option.isSome_iff_exists.mp hm
    have hne := nzcpMatchGroup_nonempty input p hp
    refine ⟨by rw [hp]; simpa using hne, ?_⟩
    unfold NZCPDecoder.payloadStage
    rw [hp]
    simp [hne, isOkE]

/-- Witness for C9 at concrete matching inputs of each scheme. -/
theorem prefix_guard_unreachable_witness :
    ((hcertMatchGroup "HC1:NCF").getD "" ≠ ""
      ∧ isOkE (HCERTDecoder.payloadStage "HC1:NCF") = true)
    ∧ ((mdocMatchGroup "mdoc:owBj").getD "" ≠ ""
      ∧ isOkE (MDocDeviceEngagementDecoder.payloadStage "mdoc:owBj") = true)
    ∧ ((nzcpMatchGroup "NZCP:/1/2KCE").getD "" ≠ ""
      ∧ isOkE (NZCPDecoder.payloadStage "NZCP:/1/2KCE") = true) :=
  ⟨(prefix_guard_unreachable "HC1:NCF").1 (by decide),
   (prefix_guard_unreachable "mdoc:owBj").2.1 (by decide),
   (prefix_guard_unreachable "NZCP:/1/2KCE").2.2 (by decide)⟩

theorem jsTruthy_eq_jsPresent (entries : List (JsKey × JsVal)) (k : String)
    (h : jsPresent entries k = true → jsTruthy (mapGet entries (JsKey.str k)) = true) :
    jsTruthy (mapGet entries (JsKey.str k)) = jsPresent entries k := by
  by_cases hp : jsPresent entries k = true
  · rw [hp, h hp]
  · have hp' : jsPresent entries k = false := Bool.eq_false_iff.mpr hp
    rw [hp']
    unfold jsPresent at hp'
    cases hm : mapGet entries (JsKey.str k) <;> rw [hm] at hp' <;> simp_all [jsTruthy]

/-- C2: on every CWT claim map of a valid HCERT input (the `-260` claim
container holds the certificate object at sub-key `1`, schema validation
passes, claims `6`/`4` are numbers, and the certificate carries at least
one of the group keys `v`/`t`/`r`, which are truthy when present), the
extraction stage succeeds with `meta.iss` equal to CWT claim `1`,
`meta.iat` equal to claim `6` times 1000, `meta.exp` equal to claim `4`
times 1000, and `meta.kind` one of `Vaccination`/`Test`/`Recovery`,
decided solely by the presence of `v`, then `t`, then `r`. -/
theorem hcert_meta_fields
    (validate : JsVal → Except String Unit)
    (cwt ctr hcert : List (JsKey × JsVal)) (i6 e4 : Int)
    (h260 : mapGet cwt (JsKey.num (-260)) = .obj ctr)
    (hh : mapGet (objFromEntries ctr) (JsKey.str "1") = .obj hcert)
    (hval : validate (.obj hcert) = .ok ())
    (hi : mapGet cwt (JsKey.num 6) = .num i6)
    (he : mapGet cwt (JsKey.num 4) = .num e4)
    (htr : ∀ k ∈ ["v", "t", "r"], jsPresent hcert k = true →
      jsTruthy (mapGet hcert (JsKey.str k)) = true)
    (_hone : jsPresent hcert "v" = true ∨ jsPresent hcert "t" = true
      ∨ jsPresent hcert "r" = true) :
    isOkE (HCERTDecoder.extract validate cwt) = true
    ∧ resultMetaGet (HCERTDecoder.extract validate cwt) "iss" = mapGet cwt (JsKey.num 1)
    ∧ resultMetaGet (HCERTDecoder.extract validate cwt) "iat" = .num (i6 * 1000)
    ∧ resultMetaGet (HCERTDecoder.extract validate cwt) "exp" = .num (e4 * 1000)
    ∧ resultMetaGet (HCERTDecoder.extract validate cwt) "kind" =
        .str (if jsPresent hcert "v" then "Vaccination"
              else if jsPresent hcert "t" then "Test" else "Recovery")
    ∧ (resultMetaGet (HCERTDecoder.extract validate cwt) "kind" = .str "Vaccination"
      ∨ resultMetaGet (HCERTDecoder.extract validate cwt) "kind" = .str "Test"
      ∨ resultMetaGet (HCERTDecoder.extract validate cwt) "kind" = .str "Recovery") := by
  have hv := jsTruthy_eq_jsPresent hcert "v" (htr "v" (by simp))
  have ht := jsTruthy_eq_jsPresent hcert "t" (htr "t" (by simp))
  have hx : HCERTDecoder.extract validate cwt =
      .ok ⟨objFromEntriesJ cwt, .obj hcert,
        .obj [(JsKey.str "iss", mapGet cwt (JsKey.num 1)),
              (JsKey.str "iat", .num (i6 * 1000)),
              (JsKey.str "exp", .num (e4 * 1000)),
              (JsKey.str "kind", .str
                (if jsPresent hcert "v" then "Vaccination"
                 else if jsPresent hcert "t" then "Test" else "Recovery"))]⟩ := by
    unfold HCERTDecoder.extract
    simp only [h260, hh, hval]
    simp [hi, he, jsMul1000, jsGetStr, hv, ht]
  have hk : resultMetaGet (HCERTDecoder.extract validate cwt) "kind" =
      .str (if jsPresent hcert "v" then "Vaccination"
            else if jsPresent hcert "t" then "Test" else "Recovery") := by
    rw [hx]
    by_cases h1 : jsPresent hcert "v" = true <;>
      by_cases h2 : jsPresent hcert "t" = true <;>
        simp [h1, h2, resultMetaGet, jsGetStr, mapGet, JsKey.str]
  refine ⟨by rw [hx]; rfl, by rw [hx]; rfl, by rw [hx]; rfl, by rw [hx]; rfl, hk, ?_⟩
  by_cases h1 : jsPresent hcert "v" = true
  · exact Or.inl (by rw [hk]; simp [h1])
  · by_cases h2 : jsPresent hcert "t" = true
    · exact Or.inr (Or.inl (by rw [hk]; simp [h1, h2]))
    · exact Or.inr (Or.inr (by rw [hk]; simp [h1, h2]))

/-- Witness for C2 on the concrete vaccination-certificate CWT. -/
theorem hcert_meta_fields_witness :
    isOkE (HCERTDecoder.extract hcertValidateOk hcertCwtEx) = true
    ∧ resultMetaGet (HCERTDecoder.extract hcertValidateOk hcertCwtEx) "iss" = .str "NZ"
    ∧ resultMetaGet (HCERTDecoder.extract hcertValidateOk hcertCwtEx) "iat" = .num 5000
    ∧ resultMetaGet (HCERTDecoder.extract hcertValidateOk hcertCwtEx) "exp" = .num 7000
    ∧ resultMetaGet (HCERTDecoder.extract hcertValidateOk hcertCwtEx) "kind" =
        .str "Vaccination" := by
  have h := hcert_meta_fields hcertValidateOk hcertCwtEx hcertCtrEx hcertHcEx 5 7
    rfl rfl rfl rfl rfl (by decide) (by decide)
  exact ⟨h.1, by rw [h.2.1]; rfl, by rw [h.2.2.1]; rfl, by rw [h.2.2.2.1]; rfl,
    by rw [h.2.2.2.2.1]; rfl⟩

/-- C7: on every NZCP CWT claim map carrying 16 raw bytes at claim `7`,
extraction succeeds, `meta.cti` is the standard UUID byte-layout
stringification of those bytes, and `meta.jti` equals
`urn:uuid:` followed by exactly that `cti` string. -/
theorem nzcp_jti_is_urn_uuid_of_cti
    (cwt : List (JsKey × JsVal)) (bs : List Nat)
    (h7 : mapGet cwt (JsKey.num 7) = .bytes bs) (hlen : bs.length = 16) :
    isOkE (NZCPDecoder.extract cwt) = true
    ∧ resultMetaGet (NZCPDecoder.extract cwt) "cti" = .str (uuidStringify bs)
    ∧ resultMetaGet (NZCPDecoder.extract cwt) "jti" =
        .str ("urn:uuid:" ++ uuidStringify bs) := by
  have htake : bs.take 16 = bs := by
    rw [← hlen]
    exact List.take_length bs
  have hx : NZCPDecoder.extract cwt =
      .ok ⟨objFromEntriesJ cwt, mapGet cwt (JsKey.str "vc"),
        .obj [(JsKey.str "iss", jsMul1000 (mapGet cwt (JsKey.num 1))),
              (JsKey.str "iat", jsMul1000 (mapGet cwt (JsKey.num 5))),
              (JsKey.str "exp", jsMul1000 (mapGet cwt (JsKey.num 4))),
              (JsKey.str "cti", .str (uuidStringify bs)),
              (JsKey.str "jti", .str ("urn:uuid:" ++ uuidStringify bs))]⟩ := by
    unfold NZCPDecoder.extract uuidStringifyE
    simp only [h7, hlen, htake]
    simp
  exact ⟨by rw [hx]; rfl, by rw [hx]; rfl, by rw [hx]; rfl⟩

/-- Witness for C7 on a concrete CWT whose claim `7` holds the bytes of
UUID `00010203-0405-4607-8809-0a0b0c0d0e0f`. -/
theorem nzcp_jti_is_urn_uuid_of_cti_witness :
    isOkE (NZCPDecoder.extract nzcpCwtEx2) = true
    ∧ resultMetaGet (NZCPDecoder.extract nzcpCwtEx2) "cti" =
        .str "00010203-0405-4607-8809-0a0b0c0d0e0f"
    ∧ resultMetaGet (NZCPDecoder.extract nzcpCwtEx2) "jti" =
        .str "urn:uuid:00010203-0405-4607-8809-0a0b0c0d0e0f" := by
  have h := nzcp_jti_is_urn_uuid_of_cti nzcpCwtEx2
    [0, 1, 2, 3, 4, 5, 70, 7, 136, 9, 10, 11, 12, 13, 14, 15] rfl rfl
  exact ⟨h.1, by rw [h.2.1]; rfl, by rw [h.2.2]; rfl⟩

/-- C3 (refuting the claim on the code): `modules/nzcp.ts` line 58
computes `meta.iss` as `cborData.get(1) * 1000`, so on the Ministry of
Health example CWT — whose claim `1` is the DID string
`did:web:nzcp.identity.health.nz` — `meta.iss` evaluates to `NaN` instead
of the unchanged issuer string, while the temporal claims `5`/`4` are
(correctly) scaled to milliseconds. -/
theorem nzcp_iss_multiplied_at_example :
    mapGet nzcpCwtEx (JsKey.num 1) = .str "did:web:nzcp.identity.health.nz"
    ∧ resultMetaGet (NZCPDecoder.extract nzcpCwtEx) "iss" = JsVal.nan
    ∧ JsVal.nan ≠ JsVal.str "did:web:nzcp.identity.health.nz"
    ∧ resultMetaGet (NZCPDecoder.extract nzcpCwtEx) "iat" = .num 1635883530000
    ∧ resultMetaGet (NZCPDecoder.extract nzcpCwtEx) "exp" = .num 1951416330000 :=
  ⟨rfl, rfl, fun h => JsVal.noConfusion h, rfl, rfl⟩

/-- C4 (refuting the claim on the code): the curve lookup at
`scheme/mdoc.ts` lines 48–52 maps identifier `2` to the literal
`'P-348'`, not `"P-384"`; identifier `1` maps to `P-256` and all other
identifiers read `undefined`.  On a concrete engagement whose COSE_Key
has curve identifier `2`, the JWK-shaped output carries `crv = "P-348"`. -/
theorem mdoc_curve2_is_P348 :
    MDocDeviceEngagementDecoder.ecCurve (.num 1) = .str "P-256"
    ∧ MDocDeviceEngagementDecoder.ecCurve (.num 2) = .str "P-348"
    ∧ MDocDeviceEngagementDecoder.ecCurve (.num 3) = .undef
    ∧ MDocDeviceEngagementDecoder.ecCurve (.num (-7)) = .undef
    ∧ deviceKeyCrv (MDocDeviceEngagementDecoder.extract mdocCborDecEx mdocCborDataEx) =
        .str "P-348"
    ∧ JsVal.str "P-348" ≠ JsVal.str "P-384" := by
  refine ⟨rfl, rfl, rfl, rfl, rfl, ?_⟩
  intro h
  rw [JsVal.str.injEq] at h
  exact absurd h (by decide)

/-- C5 (refuting the claim on the code): when an NZCP pipeline stage
fails (here the Base32 alphabet decode), `modules/nzcp.ts` line 75 wraps
the failure as `Invalid HCERT: ...` — a message naming the HCERT scheme,
not the NZCP scheme that was attempted. -/
theorem nzcp_failure_reported_as_hcert :
    NZCPDecoder.decode nzcpBase32Fail stubInflate stubCborDec "NZCP:/1/2KCEVIQEIV" =
      .error "Invalid HCERT: Error: Invalid base32 characters"
    ∧ strStarts "Invalid HCERT: Error: Invalid base32 characters" "Invalid NZCP" = false :=
  ⟨rfl, rfl⟩

/-- C8: whenever the external `decodeJwt` yields a claim set, the JWT
decoder succeeds with `raw` and `data` equal to the full claim set and
`meta` holding the seven registered claims `iss`, `sub`, `aud`, `jti`,
`nbf`, `exp`, `iat` copied verbatim — in particular the numeric
timestamps are not rescaled. -/
theorem jwt_meta_copied_verbatim
    (decodeJwt : String → Except String (List (JsKey × JsVal)))
    (input : String) (claims : List (JsKey × JsVal))
    (h : decodeJwt input = .ok claims) :
    isOkE (JWTDecoder.decode decodeJwt input) = true
    ∧ (∀ r, JWTDecoder.decode decodeJwt input = .ok r →
        r.raw = .obj claims ∧ r.data = .obj claims)
    ∧ (∀ k ∈ ["iss", "sub", "aud", "jti", "nbf", "exp", "iat"],
        resultMetaGet (JWTDecoder.decode decodeJwt input) k = mapGet claims (JsKey.str k)) := by
  have hx : JWTDecoder.decode decodeJwt input = .ok ⟨.obj claims, .obj claims,
      .obj [(JsKey.str "iss", mapGet claims (JsKey.str "iss")),
            (JsKey.str "sub", mapGet claims (JsKey.str "sub")),
            (JsKey.str "aud", mapGet claims (JsKey.str "aud")),
            (JsKey.str "jti", mapGet claims (JsKey.str "jti")),
            (JsKey.str "nbf", mapGet claims (JsKey.str "nbf")),
            (JsKey.str "exp", mapGet claims (JsKey.str "exp")),
            (JsKey.str "iat", mapGet claims (JsKey.str "iat"))]⟩ := by
    unfold JWTDecoder.decode
    rw [h]
  refine ⟨by rw [hx]; rfl, ?_, ?_⟩
  · intro r hr
    rw [hx] at hr
    injection hr with hr'
    rw [← hr']
    exact ⟨rfl, rfl⟩
  · intro k hk
    fin_cases hk <;> rw [hx] <;> rfl

/-- Witness for C8 on a concrete claim set with second-valued `exp`. -/
theorem jwt_meta_copied_verbatim_witness :
    isOkE (JWTDecoder.decode jwtStubDecode "a.b.c") = true
    ∧ resultMetaGet (JWTDecoder.decode jwtStubDecode "a.b.c") "exp" = .num 1700000000
    ∧ resultMetaGet (JWTDecoder.decode jwtStubDecode "a.b.c") "iss" =
        .str "https://issuer.example" := by
  have h := jwt_meta_copied_verbatim jwtStubDecode "a.b.c" jwtStubClaims rfl
  exact ⟨h.1, by rw [h.2.2 "exp" (by simp)]; rfl, by rw [h.2.2 "iss" (by simp)]; rfl⟩

/-- C10: the dispatcher is deterministic and stateless — with the decoder
list threaded as explicit state, a call returns its state unchanged, its
result is a function of the decoder list and the input alone, and a
second invocation on the post-state returns the identical result. -/
theorem decode_deterministic_stateless :
    ∀ (s : ServiceState) (input : String),
      (decodeSt input s).1 = decode s.decoders input
      ∧ (decodeSt input s).2 = s
      ∧ (decodeSt input ((decodeSt input s).2)).1 = (decodeSt input s).1 :=
  fun _ _ => ⟨rfl, rfl, rfl⟩
